import Mathlib

/-!
Verification of the marquee loop builder in `src/marquee.js`.

The file shallowly embeds `horizontalLoop` and `setupMarqueeAnimation`:
each DOM element becomes an `Item` snapshot of the geometry the code reads
(`width`, current `x` translation, current `xPercent`, `offsetLeft`,
`offsetWidth`, `scaleX`), numbers are rationals, and the GSAP timeline the
code schedules becomes a `Timeline` value listing every tween with its
placement, `from` value, target, duration and `immediateRender` flag.
-/

namespace Marquee

/-- Geometry snapshot of one marquee element at build time: the values the
source reads via `gsap.getProperty` and the DOM (`offsetLeft`, `offsetWidth`). -/
structure Item where
  width : ℚ
  x : ℚ
  xPercent : ℚ
  offsetLeft : ℚ
  offsetWidth : ℚ
  scaleX : ℚ
deriving Repr, DecidableEq, Inhabited

/-- Options record handed to `horizontalLoop` (`repeat`, `paddingRight`,
`speed`); the `repeat` field is named `repeatCount` because `repeat` is
reserved in Lean. -/
structure Config where
  repeatCount : ℤ
  paddingRight : ℚ
  speed : ℚ
deriving Repr, DecidableEq, Inhabited

/-- Options accepted by `setupMarqueeAnimation`; `none` models an absent
key, resolved by the source with `??` defaults. -/
structure SetupConfig where
  repeatCount : Option ℤ
  paddingRight : Option ℚ
  speed : Option ℚ
deriving Repr, DecidableEq, Inhabited

/-- One scheduled tween: its position on the timeline, the optional deferred
`from` value (`some` for the `fromTo` call, `none` for the plain `to` call),
the target `xPercent`, the duration, and the `immediateRender` flag. -/
structure Tween where
  position : ℚ
  fromXPercent : Option ℚ
  toXPercent : ℚ
  duration : ℚ
  immediateRender : Bool
deriving Repr, DecidableEq, Inhabited

/-- The value `horizontalLoop` returns: the repeat count given to
`gsap.timeline` and the tweens scheduled on it, in scheduling order. -/
structure Timeline where
  repeatCount : ℤ
  tweens : List Tween
deriving Repr, DecidableEq, Inhabited

/-- First item of the sequence (the source indexes `items[0]`). -/
def firstItem (items : List Item) : Item :=
  items.headI

/-- Last item of the sequence (the source indexes `items[length - 1]`). -/
def lastItem (items : List Item) : Item :=
  items.getLastD default

/-- Embeds `pixelsPerSecond = (config.speed || 1) * 100`: a falsy (zero)
speed falls back to 1. -/
def pixelsPerSecond (cfg : Config) : ℚ :=
  (if cfg.speed = 0 then 1 else cfg.speed) * 100

/-- Embeds `parseFloat(config.paddingRight) || 0` for a numeric padding:
zero is falsy and yields 0, any other number passes through. -/
def paddingEff (cfg : Config) : ℚ :=
  if cfg.paddingRight = 0 then 0 else cfg.paddingRight

/-- Embeds the measurement pass: `xPercents[i] = (x / w) * 100 + xPercent`
where `w = widths[i]` is the item's measured width. -/
def xPercentOf (it : Item) : ℚ :=
  it.x / it.width * 100 + it.xPercent

/-- Embeds `startX = items[0].offsetLeft`. -/
def startX (items : List Item) : ℚ :=
  (firstItem items).offsetLeft

/-- Embeds the `totalWidth` computation: last item's `offsetLeft` plus its
`xPercents` displacement converted back to pixels, minus `startX`, plus the
last item's `offsetWidth * scaleX`, plus the effective padding. -/
def totalWidth (items : List Item) (cfg : Config) : ℚ :=
  (lastItem items).offsetLeft
    + xPercentOf (lastItem items) / 100 * (lastItem items).width
    - startX items
    + (lastItem items).offsetWidth * (lastItem items).scaleX
    + paddingEff cfg

/-- Embeds `curX = (xPercents[i] / 100) * widths[i]`. -/
def curX (it : Item) : ℚ :=
  xPercentOf it / 100 * it.width

/-- Embeds `distanceToStart = item.offsetLeft + curX - startX`. -/
def distanceToStart (items : List Item) (it : Item) : ℚ :=
  it.offsetLeft + curX it - startX items

/-- Embeds `distanceToLoop = distanceToStart + widths[i] * scaleX`. -/
def distanceToLoop (items : List Item) (it : Item) : ℚ :=
  distanceToStart items it + it.width * it.scaleX

/-- Embeds the `tl.to(item, { xPercent: ..., duration: ... }, 0)` call: the
exit tween placed at time 0, animating to the wrapped-out displacement. A
plain `to` tween carries no deferred `from` value. -/
def exitTween (items : List Item) (cfg : Config) (it : Item) : Tween :=
  { position := 0
  , fromXPercent := none
  , toXPercent := (curX it - distanceToLoop items it) / it.width * 100
  , duration := distanceToLoop items it / pixelsPerSecond cfg
  , immediateRender := false }

/-- Embeds the `.fromTo(item, { xPercent: ... }, { xPercent: xPercents[i],
duration: ..., immediateRender: false }, distanceToLoop / pixelsPerSecond)`
call: the re-entry tween with its deferred `from` displacement. -/
def reentryTween (items : List Item) (cfg : Config) (it : Item) : Tween :=
  { position := distanceToLoop items it / pixelsPerSecond cfg
  , fromXPercent :=
      some ((curX it - distanceToLoop items it + totalWidth items cfg) / it.width * 100)
  , toXPercent := xPercentOf it
  , duration :=
      (curX it - distanceToLoop items it + totalWidth items cfg - curX it)
        / pixelsPerSecond cfg
  , immediateRender := false }

/-- Embeds `horizontalLoop`: builds the timeline with the configured repeat
and, for every item in order, the exit tween followed by the re-entry tween. -/
def horizontalLoop (items : List Item) (cfg : Config) : Timeline :=
  { repeatCount := cfg.repeatCount
  , tweens := items.flatMap (fun it => [exitTween items cfg it, reentryTween items cfg it]) }

/-- Embeds `setupMarqueeAnimation`: resolves the `??` defaults
(`repeat ?? -1`, `paddingRight ?? 30`, `speed ?? 1`), builds the loop only
when the item collection is non-empty, and otherwise returns nothing. -/
def setupMarqueeAnimation (marqueeItems : List Item) (config : SetupConfig) :
    Option Timeline :=
  if marqueeItems.length > 0 then
    some (horizontalLoop marqueeItems
      { repeatCount := config.repeatCount.getD (-1)
      , paddingRight := config.paddingRight.getD 30
      , speed := config.speed.getD 1 })
  else
    none

/-- Formula for the total cycle width as the specification words it: the
last item's base offset plus its normalized displacement converted back to
pixels, minus the first item's base offset, plus the last item's rendered
width times its scale factor, plus `paddingAfterLast` taken as given. -/
def totalCycleWidth_specFormula (items : List Item) (paddingAfterLast : ℚ) : ℚ :=
  ((lastItem items).offsetLeft + xPercentOf (lastItem items) / 100 * (lastItem items).width)
    - (firstItem items).offsetLeft
    + (lastItem items).offsetWidth * (lastItem items).scaleX
    + paddingAfterLast

/-- Modelled from the spec: the deferred-start semantics of the external
tween engine, which is not part of this repository. A tween applies its
starting value already at build/scheduling time only when it both carries a
`from` value and has `immediateRender` set; with `immediateRender` false the
`from` state takes effect only when the playhead reaches the tween. -/
def appliedAtBuildTime (t : Tween) : Bool :=
  t.fromXPercent.isSome && t.immediateRender

/-- Modelled from the spec: the halting behavior of the external timeline
player, which is not part of this repository. A timeline whose repeat count
is non-negative completes exactly that many full cycles and then halts; a
repeat count of `-1` (any negative value) makes it repeat forever. Returns
the number of cycles after which the player halts, `none` when it never
halts on its own. -/
def haltsAfterCycles (tl : Timeline) : Option ℤ :=
  if 0 ≤ tl.repeatCount then some tl.repeatCount else none

/-- First sample item of the two-item scenario: width 100, laid out at
offset 0, no initial transform, unit scale. -/
def sampleA : Item :=
  { width := 100, x := 0, xPercent := 0, offsetLeft := 0, offsetWidth := 100, scaleX := 1 }

/-- Second sample item of the two-item scenario: width 200, laid out right
after the first item at offset 100, no initial transform, unit scale. -/
def sampleB : Item :=
  { width := 200, x := 0, xPercent := 0, offsetLeft := 100, offsetWidth := 200, scaleX := 1 }

/-- Options of the two-item scenario: infinite repeat, padding 30, speed 1. -/
def sampleCfg : Config :=
  { repeatCount := -1, paddingRight := 30, speed := 1 }

/-- Sample item of the single-item scenario: width 50, offset 0, no initial
transform, unit scale. -/
def sampleSingle : Item :=
  { width := 50, x := 0, xPercent := 0, offsetLeft := 0, offsetWidth := 50, scaleX := 1 }

/-- Options of the single-item scenario: infinite repeat, padding 10, speed 2. -/
def sampleCfg2 : Config :=
  { repeatCount := -1, paddingRight := 10, speed := 2 }

/-- Sample item of zero measured width, otherwise laid out like a normal
element. -/
def zeroWidthItem : Item :=
  { width := 0, x := 0, xPercent := 0, offsetLeft := 0, offsetWidth := 0, scaleX := 1 }

/-- The falsy-padding fallback is the identity on rational padding values:
when the padding is 0 the fallback also yields 0. -/
lemma paddingEff_eq (cfg : Config) : paddingEff cfg = cfg.paddingRight := by
  unfold paddingEff
  split
  · rename_i h
    exact h.symm
  · rfl

/-- With a nonzero speed, `pixelsPerSecond` is just `speed * 100`. -/
lemma pixelsPerSecond_of_ne (cfg : Config) (hs : cfg.speed ≠ 0) :
    pixelsPerSecond cfg = cfg.speed * 100 := by
  unfold pixelsPerSecond
  rw [if_neg hs]

/-- The two scheduled durations of an item always add up to
`totalWidth / pixelsPerSecond`, by distributivity of division. -/
lemma duration_sum (items : List Item) (cfg : Config) (it : Item) :
    (exitTween items cfg it).duration + (reentryTween items cfg it).duration =
      totalWidth items cfg / pixelsPerSecond cfg := by
  unfold exitTween reentryTween
  ring

/-- A two-tween-per-item flatMap has twice as many tweens as items. -/
lemma length_flatMap_pair {α β : Type} (l : List α) (f g : α → β) :
    (l.flatMap (fun a => [f a, g a])).length = 2 * l.length := by
  induction l with
  | nil => rfl
  | cons a l ih =>
    simp only [List.flatMap_cons, List.length_append, List.length_cons,
      List.length_nil, ih]
    omega

/-- C1: for every non-empty item sequence and every item of it with a
nonzero measured width, the re-entry tween's deferred `from` displacement
equals the exit tween's end displacement plus `totalWidth` expressed in
percentage of that item's own width:
`((curX - distanceToLoop + totalWidth) / widths[i]) * 100 =
 ((curX - distanceToLoop) / widths[i]) * 100 + (totalWidth / widths[i]) * 100`,
so the wrap is seamless. -/
theorem reentry_from_eq_exit_end_plus_cycle
    (items : List Item) (cfg : Config) (it : Item)
    (hmem : it ∈ items) (hw : it.width ≠ 0) :
    (reentryTween items cfg it).fromXPercent =
      some ((exitTween items cfg it).toXPercent
        + totalWidth items cfg / it.width * 100) := by
  unfold reentryTween exitTween
  simp only [Option.some.injEq]
  ring

/-- Concrete instantiation of the wrap-continuity theorem on the two-item
scenario, with both hypotheses discharged. -/
theorem reentry_from_eq_exit_end_plus_cycle_witness :
    sampleA ∈ [sampleA, sampleB] ∧ sampleA.width ≠ 0 ∧
      (reentryTween [sampleA, sampleB] sampleCfg sampleA).fromXPercent =
        some ((exitTween [sampleA, sampleB] sampleCfg sampleA).toXPercent
          + totalWidth [sampleA, sampleB] sampleCfg / sampleA.width * 100) :=
  ⟨by decide, by decide,
    reentry_from_eq_exit_end_plus_cycle [sampleA, sampleB] sampleCfg sampleA
      (by decide) (by decide)⟩

/-- C2: for every non-empty item sequence with positive speed and every item
of it, the exit duration plus the re-entry duration equals
`totalWidth / (speed * 100)`; the right-hand side does not mention the item,
so the full-cycle time is the same for every item regardless of its width. -/
theorem cycle_duration_conservation
    (items : List Item) (cfg : Config) (hs : 0 < cfg.speed)
    (it : Item) (hmem : it ∈ items) :
    (exitTween items cfg it).duration + (reentryTween items cfg it).duration =
      totalWidth items cfg / (cfg.speed * 100) := by
  rw [duration_sum, pixelsPerSecond_of_ne cfg (ne_of_gt hs)]

/-- Concrete instantiation of duration conservation on the two-item
scenario, with both hypotheses discharged. -/
theorem cycle_duration_conservation_witness :
    0 < sampleCfg.speed ∧ sampleB ∈ [sampleA, sampleB] ∧
      (exitTween [sampleA, sampleB] sampleCfg sampleB).duration
          + (reentryTween [sampleA, sampleB] sampleCfg sampleB).duration =
        totalWidth [sampleA, sampleB] sampleCfg / (sampleCfg.speed * 100) :=
  ⟨by decide, by decide,
    cycle_duration_conservation [sampleA, sampleB] sampleCfg (by decide)
      sampleB (by decide)⟩

/-- C3: the computed `totalWidth` agrees with the specification's formula
(last base offset plus normalized displacement in pixels, minus first base
offset, plus scaled rendered width of the last item, plus padding), and the
two spec scenarios hold: widths 100 and 200 with padding 30 and speed 1 give
`totalWidth = 330` and a 3.3 s cycle for both items; a single width-50 item
with padding 10 and speed 2 gives `totalWidth = 60` and a 0.3 s cycle. -/
theorem totalWidth_formula_and_scenarios :
    (∀ (items : List Item) (cfg : Config),
      totalWidth items cfg = totalCycleWidth_specFormula items cfg.paddingRight)
    ∧ totalWidth [sampleA, sampleB] sampleCfg = 330
    ∧ (exitTween [sampleA, sampleB] sampleCfg sampleA).duration
        + (reentryTween [sampleA, sampleB] sampleCfg sampleA).duration = 33 / 10
    ∧ (exitTween [sampleA, sampleB] sampleCfg sampleB).duration
        + (reentryTween [sampleA, sampleB] sampleCfg sampleB).duration = 33 / 10
    ∧ totalWidth [sampleSingle] sampleCfg2 = 60
    ∧ (exitTween [sampleSingle] sampleCfg2 sampleSingle).duration
        + (reentryTween [sampleSingle] sampleCfg2 sampleSingle).duration = 3 / 10 := by
  refine ⟨fun items cfg => ?_,
    by norm_num [totalWidth, lastItem, firstItem, startX, xPercentOf, paddingEff,
      sampleA, sampleB, sampleCfg],
    by norm_num [exitTween, reentryTween, totalWidth, lastItem, firstItem, startX,
      xPercentOf, curX, distanceToStart, distanceToLoop, pixelsPerSecond, paddingEff,
      sampleA, sampleB, sampleCfg],
    by norm_num [exitTween, reentryTween, totalWidth, lastItem, firstItem, startX,
      xPercentOf, curX, distanceToStart, distanceToLoop, pixelsPerSecond, paddingEff,
      sampleA, sampleB, sampleCfg],
    by norm_num [totalWidth, lastItem, firstItem, startX, xPercentOf, paddingEff,
      sampleSingle, sampleCfg2],
    by norm_num [exitTween, reentryTween, totalWidth, lastItem, firstItem, startX,
      xPercentOf, curX, distanceToStart, distanceToLoop, pixelsPerSecond, paddingEff,
      sampleSingle, sampleCfg2]⟩
  unfold totalWidth totalCycleWidth_specFormula startX
  rw [paddingEff_eq]

/-- C4: for positive speed, every item's re-entry tween is placed at
`distanceToLoop / (speed * 100)` on the timeline, which is exactly where its
exit tween ends, and its deferred `from` value is not applied at build time:
`immediateRender` is false, so under the deferred-start semantics the value
only takes effect when the playhead reaches the tween. -/
theorem reentry_scheduling_deferred
    (items : List Item) (cfg : Config) (hs : 0 < cfg.speed)
    (it : Item) (hmem : it ∈ items) :
    (reentryTween items cfg it).position =
        distanceToLoop items it / (cfg.speed * 100)
      ∧ (reentryTween items cfg it).position =
        (exitTween items cfg it).position + (exitTween items cfg it).duration
      ∧ (reentryTween items cfg it).immediateRender = false
      ∧ appliedAtBuildTime (reentryTween items cfg it) = false := by
  refine ⟨?_, ?_, rfl, ?_⟩
  · unfold reentryTween
    rw [pixelsPerSecond_of_ne cfg (ne_of_gt hs)]
  · unfold reentryTween exitTween
    simp only
    ring
  · unfold appliedAtBuildTime reentryTween
    simp

/-- Concrete instantiation of the re-entry scheduling theorem on the
two-item scenario, with both hypotheses discharged. -/
theorem reentry_scheduling_deferred_witness :
    0 < sampleCfg.speed ∧ sampleA ∈ [sampleA, sampleB] ∧
      ((reentryTween [sampleA, sampleB] sampleCfg sampleA).position =
          distanceToLoop [sampleA, sampleB] sampleA / (sampleCfg.speed * 100)
        ∧ (reentryTween [sampleA, sampleB] sampleCfg sampleA).position =
          (exitTween [sampleA, sampleB] sampleCfg sampleA).position
            + (exitTween [sampleA, sampleB] sampleCfg sampleA).duration
        ∧ (reentryTween [sampleA, sampleB] sampleCfg sampleA).immediateRender = false
        ∧ appliedAtBuildTime (reentryTween [sampleA, sampleB] sampleCfg sampleA) = false) :=
  ⟨by decide, by decide,
    reentry_scheduling_deferred [sampleA, sampleB] sampleCfg (by decide)
      sampleA (by decide)⟩

/-- C5 counterexample: with speed -1 and padding -5 the builder does not
reject the configuration; it returns a timeline with two tweens whose exit
tween has the negative duration -1/2, i.e. a reversed-direction segment. -/
theorem invalid_config_not_rejected :
    (horizontalLoop [sampleSingle]
        { repeatCount := -1, paddingRight := -5, speed := -1 }).tweens.length = 2
      ∧ ((horizontalLoop [sampleSingle]
          { repeatCount := -1, paddingRight := -5, speed := -1 }).tweens.headI).duration
        = -1 / 2 := by
  constructor
  · rfl
  · norm_num [horizontalLoop, List.flatMap, List.headI, exitTween, reentryTween,
      distanceToLoop, distanceToStart, curX, xPercentOf, startX, firstItem, lastItem,
      totalWidth, paddingEff, pixelsPerSecond, sampleSingle]

/-- C5 amended: the builder performs no configuration validation; for every
configuration, including non-positive speed and negative padding, it returns
a timeline with exactly two tweens per item. -/
theorem builder_never_rejects (items : List Item) (cfg : Config) :
    (horizontalLoop items cfg).tweens.length = 2 * items.length := by
  unfold horizontalLoop
  exact length_flatMap_pair items _ _

/-- C6 counterexample: for an input containing an item of zero measured
width, the builder raises nothing; it still returns a timeline with two
tweens, the second of which is the zero-width item's re-entry tween. -/
theorem zero_width_not_rejected :
    (horizontalLoop [zeroWidthItem] sampleCfg).tweens.length = 2
      ∧ reentryTween [zeroWidthItem] sampleCfg zeroWidthItem
        ∈ (horizontalLoop [zeroWidthItem] sampleCfg).tweens := by
  constructor
  · rfl
  · simp [horizontalLoop]

/-- C6 amended: the builder has no zero-width guard; for every input
containing an item of zero measured width it still returns a full timeline,
two tweens per item, and the degenerate item's re-entry tween — whose
displacement came from dividing by its zero width — is scheduled on it. -/
theorem zero_width_still_builds
    (items : List Item) (cfg : Config) (it : Item)
    (hmem : it ∈ items) (hw : it.width = 0) :
    (horizontalLoop items cfg).tweens.length = 2 * items.length
      ∧ reentryTween items cfg it ∈ (horizontalLoop items cfg).tweens := by
  constructor
  · unfold horizontalLoop
    exact length_flatMap_pair items _ _
  · unfold horizontalLoop
    simp only [List.mem_flatMap]
    exact ⟨it, hmem, by simp⟩

/-- Concrete instantiation of the zero-width theorem on a one-item input of
width 0, with both hypotheses discharged. -/
theorem zero_width_still_builds_witness :
    zeroWidthItem ∈ [zeroWidthItem] ∧ zeroWidthItem.width = 0 ∧
      ((horizontalLoop [zeroWidthItem] sampleCfg2).tweens.length
          = 2 * [zeroWidthItem].length
        ∧ reentryTween [zeroWidthItem] sampleCfg2 zeroWidthItem
          ∈ (horizontalLoop [zeroWidthItem] sampleCfg2).tweens) :=
  ⟨by decide, by decide,
    zero_width_still_builds [zeroWidthItem] sampleCfg2 zeroWidthItem
      (by decide) (by decide)⟩

/-- C7: for an empty item collection the marquee setup is a no-op: it builds
no timeline, returns nothing and raises no error. -/
theorem empty_items_noop (config : SetupConfig) :
    setupMarqueeAnimation [] config = none := by
  unfold setupMarqueeAnimation
  rfl

/-- C8: holding items, speed (positive) and repeat fixed, strictly
increasing the padding strictly increases both `totalWidth` and every
item's full-cycle duration (exit plus re-entry duration). -/
theorem padding_strict_monotone
    (items : List Item) (cfg : Config) (p q : ℚ)
    (hs : 0 < cfg.speed) (hpq : p < q) (it : Item) (hmem : it ∈ items) :
    totalWidth items { cfg with paddingRight := p }
        < totalWidth items { cfg with paddingRight := q }
      ∧ (exitTween items { cfg with paddingRight := p } it).duration
          + (reentryTween items { cfg with paddingRight := p } it).duration
        < (exitTween items { cfg with paddingRight := q } it).duration
          + (reentryTween items { cfg with paddingRight := q } it).duration := by
  have htw : totalWidth items { cfg with paddingRight := p }
      < totalWidth items { cfg with paddingRight := q } := by
    unfold totalWidth
    rw [paddingEff_eq, paddingEff_eq]
    dsimp only
    linarith
  refine ⟨htw, ?_⟩
  rw [duration_sum, duration_sum]
  have hpps : ∀ r : ℚ, pixelsPerSecond { cfg with paddingRight := r } = cfg.speed * 100 :=
    fun r => pixelsPerSecond_of_ne _ (ne_of_gt hs)
  rw [hpps p, hpps q]
  have hpos : (0 : ℚ) < cfg.speed * 100 := by positivity
  exact div_lt_div_of_pos_right htw hpos

/-- Concrete instantiation of padding monotonicity on the two-item scenario
with paddings 30 and 40, all hypotheses discharged. -/
theorem padding_strict_monotone_witness :
    0 < sampleCfg.speed ∧ (30 : ℚ) < 40 ∧ sampleA ∈ [sampleA, sampleB] ∧
      (totalWidth [sampleA, sampleB] { sampleCfg with paddingRight := 30 }
          < totalWidth [sampleA, sampleB] { sampleCfg with paddingRight := 40 }
        ∧ (exitTween [sampleA, sampleB] { sampleCfg with paddingRight := 30 } sampleA).duration
            + (reentryTween [sampleA, sampleB] { sampleCfg with paddingRight := 30 } sampleA).duration
          < (exitTween [sampleA, sampleB] { sampleCfg with paddingRight := 40 } sampleA).duration
            + (reentryTween [sampleA, sampleB] { sampleCfg with paddingRight := 40 } sampleA).duration) :=
  ⟨by decide, by decide, by decide,
    padding_strict_monotone [sampleA, sampleB] sampleCfg 30 40
      (by decide) (by decide) sampleA (by decide)⟩

/-- C9: for every non-empty item collection, a setup with repeat 3 yields a
timeline that, under the modelled player semantics, completes exactly 3 full
cycles and then halts, while a setup with repeat -1 yields a timeline that
never halts on its own. -/
theorem repeat_bound_semantics
    (items : List Item) (h : items ≠ []) (pad spd : Option ℚ) :
    (∃ tl, setupMarqueeAnimation items
        { repeatCount := some 3, paddingRight := pad, speed := spd } = some tl
      ∧ haltsAfterCycles tl = some 3)
    ∧ (∃ tl, setupMarqueeAnimation items
        { repeatCount := some (-1), paddingRight := pad, speed := spd } = some tl
      ∧ haltsAfterCycles tl = none) := by
  have hlen : items.length > 0 := List.length_pos.mpr h
  constructor
  · refine ⟨horizontalLoop items
      { repeatCount := 3, paddingRight := pad.getD 30, speed := spd.getD 1 }, ?_, ?_⟩
    · unfold setupMarqueeAnimation
      rw [if_pos hlen]
      rfl
    · rfl
  · refine ⟨horizontalLoop items
      { repeatCount := -1, paddingRight := pad.getD 30, speed := spd.getD 1 }, ?_, ?_⟩
    · unfold setupMarqueeAnimation
      rw [if_pos hlen]
      rfl
    · rfl

/-- Concrete instantiation of the repeat-bound theorem on a one-item
collection, with the non-emptiness hypothesis discharged. -/
theorem repeat_bound_semantics_witness :
    [sampleSingle] ≠ ([] : List Item) ∧
      ((∃ tl, setupMarqueeAnimation [sampleSingle]
          { repeatCount := some 3, paddingRight := none, speed := none } = some tl
        ∧ haltsAfterCycles tl = some 3)
      ∧ (∃ tl, setupMarqueeAnimation [sampleSingle]
          { repeatCount := some (-1), paddingRight := none, speed := none } = some tl
        ∧ haltsAfterCycles tl = none)) :=
  ⟨by decide,
    repeat_bound_semantics [sampleSingle] (by decide) none none⟩

/-- C10: a falsy (zero) speed is silently replaced by 1: the timeline built
with speed 0 is identical, tween for tween, to the one built with speed 1,
holding repeat and padding fixed. -/
theorem zero_speed_same_as_one (items : List Item) (rc : ℤ) (p : ℚ) :
    horizontalLoop items { repeatCount := rc, paddingRight := p, speed := 0 } =
      horizontalLoop items { repeatCount := rc, paddingRight := p, speed := 1 } := by
  unfold horizontalLoop
  simp only [Timeline.mk.injEq, true_and]
  apply List.flatMap_congr
  intro it hit
  simp [exitTween, reentryTween, totalWidth, paddingEff, pixelsPerSecond]

end Marquee
